import Mathlib

/-!
Verification of the WebSocket server acceptance and client-lifecycle layer
(`src/ixwebsocket/IXWebSocketServer.cpp`).

The source is embedded shallowly: each member function of `ix::WebSocketServer`
becomes a pure Lean function over explicit state, and every externally
observable action (logging, thread naming, registry mutation, session I/O,
termination marking) is recorded in an event trace.  The collaborating classes
(`WebSocket`, `ConnectionState`, `SocketServer`) are not part of the source
file; only the operations `handleConnection` invokes on them are modelled, as
uninterpreted state fields and events, with their results (handshake status,
whether the application hook registered a message handler) supplied as inputs.
The client registry `_clients` (a `std::set` of session handles) is modelled as
a `Finset Nat` of handle identities; since other worker threads may mutate the
set between this worker's two mutex-guarded critical sections, the environment
carries an `interfere` function applied to the registry between the insert and
the erase.
-/

namespace IX


/-- Result of `WebSocket::connectToSocket`: the handshake outcome struct with
fields `success`, `http_status` and `errorStr` read by `handleConnection`. -/
structure WebSocketConnectStatus where
  success : Bool
  http_status : Int
  errorStr : String
deriving DecidableEq, Repr

/-- Observable state of one `WebSocket` session as far as `handleConnection`
configures it: whether a per-message callback is registered, whether pong is
enabled, whether permessage-deflate is enabled, and whether automatic
reconnection is enabled.  The `WebSocket` constructor is outside the source
file, so the freshly allocated session state is an input of the handler. -/
structure WebSocket where
  onMessageCallbackRegistered : Bool
  pongEnabled : Bool
  perMessageDeflateEnabled : Bool
  automaticReconnectionEnabled : Bool
deriving DecidableEq, Repr

/-- The fields of `ix::WebSocketServer` that the source file reads or writes.
The two `std::function` callback members are modelled by their truthiness
(whether a callback is installed), which is all `handleConnection` tests. -/
structure WebSocketServer where
  _handshakeTimeoutSecs : Int
  _enablePong : Bool
  _enablePerMessageDeflate : Bool
  _onConnectionCallback : Bool
  _onClientMessageCallback : Bool
deriving DecidableEq, Repr

/-- Constant `WebSocketServer::kDefaultHandShakeTimeoutSecs` (3 seconds). -/
def kDefaultHandShakeTimeoutSecs : Int := 3

/-- Constant `WebSocketServer::kDefaultEnablePong`. -/
def kDefaultEnablePong : Bool := true

/-- Constructor `WebSocketServer::WebSocketServer` (lines 23-34): `port`, `host`,
`backlog`, `maxConnections` and `addressFamily` are forwarded to the
`SocketServer` base class (outside this file) and stored nowhere in this
class; the constructor stores `handshakeTimeoutSecs` unchanged, enables pong
by default and enables permessage-deflate by default.  A freshly constructed
`std::function` is empty, hence both callback members are falsy. -/
def WebSocketServer.construct (handshakeTimeoutSecs : Int) : WebSocketServer where
  _handshakeTimeoutSecs := handshakeTimeoutSecs
  _enablePong := kDefaultEnablePong
  _enablePerMessageDeflate := true
  _onConnectionCallback := false
  _onClientMessageCallback := false

/-- Method `WebSocketServer::enablePong` (lines 54-57). -/
def WebSocketServer.enablePong (s : WebSocketServer) : WebSocketServer :=
  { s with _enablePong := true }

/-- Method `WebSocketServer::disablePong` (lines 59-62). -/
def WebSocketServer.disablePong (s : WebSocketServer) : WebSocketServer :=
  { s with _enablePong := false }

/-- Method `WebSocketServer::disablePerMessageDeflate` (lines 64-67). -/
def WebSocketServer.disablePerMessageDeflate (s : WebSocketServer) : WebSocketServer :=
  { s with _enablePerMessageDeflate := false }

/-- Method `WebSocketServer::setOnConnectionCallback` (lines 69-72): installs the
`OnConnection` hook (the member becomes truthy). -/
def WebSocketServer.setOnConnectionCallback (s : WebSocketServer) : WebSocketServer :=
  { s with _onConnectionCallback := true }

/-- Method `WebSocketServer::setOnClientMessageCallback` (lines 74-77): installs the
`OnClientMessage` hook (the member becomes truthy). -/
def WebSocketServer.setOnClientMessageCallback (s : WebSocketServer) : WebSocketServer :=
  { s with _onClientMessageCallback := true }

/-- Observable actions performed by the source, in program order. -/
inductive Event where
  | setThreadName (name : String)
  | invokeOnConnection
  | registerOnClientMessageHandler
  | clearOnMessageCallback
  | logError (msg : String)
  | disableAutomaticReconnection
  | enablePong
  | disablePong
  | lockClientsMutex
  | unlockClientsMutex
  | insertClient (c : Nat)
  | connectToSocket (timeoutSecs : Int)
  | run
  | eraseClient (removed : Nat)
  | setTerminated
  | stopAcceptingConnections
  | closeClient (c : Nat)
  | socketServerStop
deriving DecidableEq, Repr

/-- First error line when `OnConnection` returned without registering a
per-message handler (typo `registerered` preserved from the source). -/
def errImproperlyRegistered : String :=
  "WebSocketServer Application developer error: Server callback improperly registerered."

/-- Second error line for the same misconfiguration. -/
def errMissingSetOnMessageCallback : String :=
  "Missing call to setOnMessageCallback inside setOnConnectionCallback."

/-- First error line when neither hook is installed. -/
def errNoServerCallback : String :=
  "WebSocketServer Application developer error: No server callback is registerered."

/-- Second error line when neither hook is installed. -/
def errMissingSetCallback : String :=
  "Missing call to setOnConnectionCallback or setOnClientMessageCallback."

/-- The registry-invariant-violation message. -/
def errCannotDeleteClient : String := "Cannot delete client"

/-- The handshake-failure log line built with a `stringstream` at lines
141-144: HTTP status followed by the error string. -/
def handshakeFailureLog (st : WebSocketConnectStatus) : String :=
  "WebSocketServer::handleConnection() HTTP status: " ++ toString st.http_status
    ++ " error: " ++ st.errorStr

/-- Per-connection environment for one invocation of `handleConnection`:
the server state as read during the call, the connection identifier
(`connectionState->getId()`), the identity `wsId` of the freshly allocated
session handle, the fresh session state produced by the `WebSocket`
constructor, whether the application `OnConnection` hook registers a
per-message handler before returning, the handshake result, the registry
contents when the insert critical section is entered, and the interference of
other threads on the registry between this worker's two critical sections. -/
structure HandlerEnv where
  server : WebSocketServer
  connectionId : String
  wsId : Nat
  freshWebSocket : WebSocket
  onConnectionRegistersHandler : Bool
  connectStatus : WebSocketConnectStatus
  clients : Finset Nat
  interfere : Finset Nat → Finset Nat

/-- Result of one invocation of `handleConnection`: the event trace, the final
state of the session object, the final registry contents, and whether
`connectionState->setTerminated()` was called. -/
structure HandlerResult where
  events : List Event
  webSocket : WebSocket
  clients : Finset Nat
  terminated : Bool

/-- Lines 116-160 of `handleConnection`: the tail common to both successful
dispatch paths.  Disable automatic reconnection, apply the pong flag, insert
the session into `_clients` under the mutex, attempt the handshake with
`_handshakeTimeoutSecs`, run the message loop on success or log the failure,
clear the per-message callback, erase the session from `_clients` under the
mutex (logging when the erase count differs from 1), and mark the connection
terminated.  Note that `_enablePerMessageDeflate` is never read. -/
def handleConnectionAfterDispatch (env : HandlerEnv) (ws : WebSocket)
    (ev : List Event) : HandlerResult :=
  let ws := { ws with automaticReconnectionEnabled := false }
  let ev := ev ++ [Event.disableAutomaticReconnection]
  let ws := { ws with pongEnabled := env.server._enablePong }
  let ev := ev ++ [if env.server._enablePong then Event.enablePong else Event.disablePong]
  let clientsIns := insert env.wsId env.clients
  let ev := ev ++ [Event.lockClientsMutex, Event.insertClient env.wsId,
                   Event.unlockClientsMutex]
  let ev := ev ++ [Event.connectToSocket env.server._handshakeTimeoutSecs]
  let ev := if env.connectStatus.success then ev ++ [Event.run]
            else ev ++ [Event.logError (handshakeFailureLog env.connectStatus)]
  let ws := { ws with onMessageCallbackRegistered := false }
  let ev := ev ++ [Event.clearOnMessageCallback]
  let clientsCur := env.interfere clientsIns
  let removed : Nat := if env.wsId ∈ clientsCur then 1 else 0
  let clientsFin := clientsCur.erase env.wsId
  let ev := ev ++ [Event.lockClientsMutex, Event.eraseClient removed]
  let ev := if removed ≠ 1 then ev ++ [Event.logError errCannotDeleteClient] else ev
  let ev := ev ++ [Event.unlockClientsMutex]
  let ev := ev ++ [Event.setTerminated]
  { events := ev, webSocket := ws, clients := clientsFin, terminated := true }

/-- Body of `WebSocketServer::handleConnection` (lines 79-160).  Set the worker thread
name, allocate a fresh session, dispatch on the installed hook (the
`OnConnection` hook wins when both are installed; either misconfiguration path
logs two errors, marks the connection terminated and returns before any
registry or socket activity), then continue with
`handleConnectionAfterDispatch`. -/
def WebSocketServer.handleConnection (env : HandlerEnv) : HandlerResult :=
  let ev0 : List Event := [Event.setThreadName ("WebSocketServer::" ++ env.connectionId)]
  let ws := env.freshWebSocket
  if env.server._onConnectionCallback then
    let ws := { ws with onMessageCallbackRegistered := env.onConnectionRegistersHandler }
    let ev := ev0 ++ [Event.invokeOnConnection]
    if ws.onMessageCallbackRegistered = false then
      { events := ev ++ [Event.logError errImproperlyRegistered,
                         Event.logError errMissingSetOnMessageCallback,
                         Event.setTerminated]
      , webSocket := ws, clients := env.clients, terminated := true }
    else
      handleConnectionAfterDispatch env ws ev
  else if env.server._onClientMessageCallback then
    let ws := { ws with onMessageCallbackRegistered := true }
    handleConnectionAfterDispatch env ws (ev0 ++ [Event.registerOnClientMessageHandler])
  else
    { events := ev0 ++ [Event.logError errNoServerCallback,
                        Event.logError errMissingSetCallback,
                        Event.setTerminated]
    , webSocket := ws, clients := env.clients, terminated := true }

/-- Method `WebSocketServer::getClients` (lines 162-166): under the registry mutex,
return an independent copy of `_clients`. -/
def WebSocketServer.getClients (clients : Finset Nat) : List Event × Finset Nat :=
  ([Event.lockClientsMutex, Event.unlockClientsMutex], clients)

/-- Method `WebSocketServer::getConnectedClientsCount` (lines 168-172). -/
def WebSocketServer.getConnectedClientsCount (clients : Finset Nat) : Nat :=
  clients.card

/-- Method `WebSocketServer::stop` (lines 41-52): stop accepting connections, take a
snapshot of the registry via `getClients`, call `close()` on every session of
the snapshot (a `std::set` iterates in key order, modelled by sorting), then
delegate to `SocketServer::stop`. -/
def WebSocketServer.stop (clients : Finset Nat) : List Event :=
  [Event.stopAcceptingConnections]
    ++ (WebSocketServer.getClients clients).1
    ++ ((WebSocketServer.getClients clients).2.sort (· ≤ ·)).map Event.closeClient
    ++ [Event.socketServerStop]

/-- Classifier: registry-insert events. -/
def Event.isInsertClient : Event → Bool
  | .insertClient _ => true
  | _ => false

/-- Classifier: handshake-attempt events. -/
def Event.isConnectToSocket : Event → Bool
  | .connectToSocket _ => true
  | _ => false

/-- Classifier: registry-erase events. -/
def Event.isEraseClient : Event → Bool
  | .eraseClient _ => true
  | _ => false

/-- Classifier: the clearing of the per-message callback
(`setOnMessageCallback(nullptr)`). -/
def Event.isClearOnMessageCallback : Event → Bool
  | .clearOnMessageCallback => true
  | _ => false

/-- Classifier: the message-loop event (`webSocket->run()`). -/
def Event.isRunLoop : Event → Bool
  | .run => true
  | _ => false

/-- Classifier: error-log events. -/
def Event.isLogError : Event → Bool
  | .logError _ => true
  | _ => false

/-- Classifier: the termination mark (`connectionState->setTerminated()`). -/
def Event.isSetTerminated : Event → Bool
  | .setTerminated => true
  | _ => false

/-- The dispatcher (lines 86-114) reaches the common tail exactly when the
`OnConnection` hook is installed and registered a per-message handler, or no
`OnConnection` hook is installed but an `OnClientMessage` hook is. -/
def dispatchSucceeds (env : HandlerEnv) : Prop :=
  (env.server._onConnectionCallback = true ∧ env.onConnectionRegistersHandler = true)
    ∨ (env.server._onConnectionCallback = false ∧ env.server._onClientMessageCallback = true)

/-- Event trace of one `handleConnection` invocation. -/
def eventsOf (env : HandlerEnv) : List Event :=
  (WebSocketServer.handleConnection env).events

/-- Environment for the `onConnection_wins` witness: both hooks installed. -/
def c4env : HandlerEnv where
  server := ((WebSocketServer.construct 3).setOnConnectionCallback).setOnClientMessageCallback
  connectionId := "1"
  wsId := 0
  freshWebSocket := ⟨false, true, true, true⟩
  onConnectionRegistersHandler := true
  connectStatus := ⟨true, 101, ""⟩
  clients := ∅
  interfere := id

/-- Environment for the `misconfiguration_two_logs` witness: no hook at all. -/
def c7env : HandlerEnv where
  server := WebSocketServer.construct 3
  connectionId := "2"
  wsId := 0
  freshWebSocket := ⟨false, true, true, true⟩
  onConnectionRegistersHandler := false
  connectStatus := ⟨true, 101, ""⟩
  clients := ∅
  interfere := id

/-- Environment witnessing the missing permessage-deflate application: the
server has had `disablePerMessageDeflate()` called, an `OnClientMessage` hook
is installed, and the freshly allocated session has permessage-deflate
enabled (its engine-side default). -/
def c1env : HandlerEnv where
  server := ((WebSocketServer.construct 3).setOnClientMessageCallback).disablePerMessageDeflate
  connectionId := "3"
  wsId := 0
  freshWebSocket := ⟨false, true, true, true⟩
  onConnectionRegistersHandler := false
  connectStatus := ⟨true, 101, ""⟩
  clients := ∅
  interfere := id

/-- Environment for the `handshake_failure_registry` witness. -/
def c2env : HandlerEnv where
  server := (WebSocketServer.construct 3).setOnClientMessageCallback
  connectionId := "4"
  wsId := 5
  freshWebSocket := ⟨false, true, true, true⟩
  onConnectionRegistersHandler := false
  connectStatus := ⟨false, 400, "Timed out"⟩
  clients := {9}
  interfere := id

/-- Environment for the `insert_io_erase_order` witness. -/
def c5env : HandlerEnv where
  server := (WebSocketServer.construct 3).setOnConnectionCallback
  connectionId := "5"
  wsId := 2
  freshWebSocket := ⟨false, true, true, true⟩
  onConnectionRegistersHandler := true
  connectStatus := ⟨true, 101, ""⟩
  clients := ∅
  interfere := id

/-- Environment for the `erase_count_logging` witness: the interference
removes the freshly inserted handle, so the erase finds nothing. -/
def c8env : HandlerEnv where
  server := (WebSocketServer.construct 3).setOnClientMessageCallback
  connectionId := "6"
  wsId := 5
  freshWebSocket := ⟨false, true, true, true⟩
  onConnectionRegistersHandler := false
  connectStatus := ⟨true, 101, ""⟩
  clients := ∅
  interfere := fun s => s.erase 5

/-- Capture mode of one variable in a C++ lambda capture list. -/
inductive CaptureMode where
  | byValue
  | byReference
deriving DecidableEq, Repr

/-- Capture list of the per-message handler lambda installed on the
`OnClientMessage` path (lines 99-103 of the source):
`[this, &ws = *webSocket.get(), connectionState, &ci = *connectionInfo.get()]`.
`this` and `connectionState` (a `shared_ptr` copied into the closure) are
value captures; `ws` and `ci` are reference captures of the pointees of
`webSocket` and `connectionInfo`. -/
def onClientMessageHandlerCaptures : List (String × CaptureMode) :=
  [("this", CaptureMode.byValue), ("ws", CaptureMode.byReference),
   ("connectionState", CaptureMode.byValue), ("ci", CaptureMode.byReference)]

/-- Environment for the `connectionInfo_reference_outlives_handler` witness. -/
def c9env : HandlerEnv where
  server := (WebSocketServer.construct 3).setOnClientMessageCallback
  connectionId := "8"
  wsId := 1
  freshWebSocket := ⟨false, true, true, true⟩
  onConnectionRegistersHandler := false
  connectStatus := ⟨true, 101, ""⟩
  clients := ∅
  interfere := id

/-- Environment for the `handshakeTimeout_passed_unchanged` witness: a server
constructed with the (nonsensical, unclamped) timeout of -7 seconds. -/
def c10env : HandlerEnv where
  server := (WebSocketServer.construct (-7)).setOnClientMessageCallback
  connectionId := "9"
  wsId := 0
  freshWebSocket := ⟨false, true, true, true⟩
  onConnectionRegistersHandler := false
  connectStatus := ⟨true, 101, ""⟩
  clients := ∅
  interfere := id

/-- C3: every execution path through `handleConnection` — normal completion,
handshake failure, no hook registered, and `OnConnection` returning without
registering a message handler — reaches `connectionState->setTerminated()`
immediately before the handler returns, and the handler, being a total
function in this embedding of straight-line code with no throw statements,
never propagates an exception. -/
theorem handleConnection_always_terminates (env : HandlerEnv) :
    (WebSocketServer.handleConnection env).events.getLast? = some Event.setTerminated
      ∧ (WebSocketServer.handleConnection env).terminated = true := by
  unfold WebSocketServer.handleConnection handleConnectionAfterDispatch
  by_cases hA : env.server._onConnectionCallback <;>
    by_cases hR : env.onConnectionRegistersHandler <;>
      by_cases hB : env.server._onClientMessageCallback <;>
        by_cases hS : env.connectStatus.success <;>
          by_cases hM : env.wsId ∈ env.interfere (insert env.wsId env.clients) <;>
            simp [hA, hR, hB, hS, hM, List.getLast?_append]

/-- C4: when both hooks are installed, the dispatcher takes the `OnConnection`
path (the hook is invoked) and never installs the `OnClientMessage` closure on
the session; since that closure is the only way the `OnClientMessage` hook can
be invoked for a connection, the hook is never invoked for this connection,
and there is no silent fallback. -/
theorem onConnection_wins (env : HandlerEnv)
    (hA : env.server._onConnectionCallback = true)
    (hB : env.server._onClientMessageCallback = true) :
    Event.invokeOnConnection ∈ eventsOf env
      ∧ Event.registerOnClientMessageHandler ∉ eventsOf env := by
  unfold eventsOf WebSocketServer.handleConnection handleConnectionAfterDispatch
  by_cases hR : env.onConnectionRegistersHandler <;>
    by_cases hS : env.connectStatus.success <;>
      by_cases hP : env.server._enablePong <;>
        by_cases hM : env.wsId ∈ env.interfere (insert env.wsId env.clients) <;>
          simp [hA, hB, hR, hS, hP, hM]

/-- Witness for `onConnection_wins` at a concrete environment. -/
theorem onConnection_wins_witness :
    Event.invokeOnConnection ∈ eventsOf c4env
      ∧ Event.registerOnClientMessageHandler ∉ eventsOf c4env :=
  onConnection_wins c4env rfl rfl

/-- C7: on either misconfiguration path (no hook installed, or `OnConnection`
installed but returning without a registered per-message handler) the handler
logs exactly two error lines, marks the connection terminated, performs no
registry insert, no handshake and no message loop, and leaves the registry
unchanged. -/
theorem misconfiguration_two_logs (env : HandlerEnv)
    (h : (env.server._onConnectionCallback = false
            ∧ env.server._onClientMessageCallback = false)
      ∨ (env.server._onConnectionCallback = true
            ∧ env.onConnectionRegistersHandler = false)) :
    (eventsOf env).countP Event.isLogError = 2
      ∧ (WebSocketServer.handleConnection env).terminated = true
      ∧ (eventsOf env).countP Event.isInsertClient = 0
      ∧ (eventsOf env).countP Event.isConnectToSocket = 0
      ∧ Event.run ∉ eventsOf env
      ∧ (WebSocketServer.handleConnection env).clients = env.clients := by
  unfold eventsOf WebSocketServer.handleConnection
  rcases h with ⟨h1, h2⟩ | ⟨h1, h2⟩ <;>
    simp [h1, h2, Event.isLogError, Event.isInsertClient, Event.isConnectToSocket,
      List.countP_cons]

/-- Witness for `misconfiguration_two_logs` at a concrete environment. -/
theorem misconfiguration_two_logs_witness :
    (eventsOf c7env).countP Event.isLogError = 2
      ∧ (WebSocketServer.handleConnection c7env).terminated = true
      ∧ (eventsOf c7env).countP Event.isInsertClient = 0
      ∧ (eventsOf c7env).countP Event.isConnectToSocket = 0
      ∧ Event.run ∉ eventsOf c7env
      ∧ (WebSocketServer.handleConnection c7env).clients = c7env.clients :=
  misconfiguration_two_logs c7env (Or.inl ⟨rfl, rfl⟩)

/-- C1: `handleConnection` never reads `_enablePerMessageDeflate`, so the
session's permessage-deflate setting is whatever the `WebSocket` constructor
chose, on every path; in particular, after `disablePerMessageDeflate()` a
configured session still has permessage-deflate enabled, while the pong flag
is applied.  This contradicts the claim that both flags are applied. -/
theorem deflate_flag_never_applied :
    (∀ env : HandlerEnv,
        (WebSocketServer.handleConnection env).webSocket.perMessageDeflateEnabled
          = env.freshWebSocket.perMessageDeflateEnabled)
      ∧ c1env.server._enablePerMessageDeflate = false
      ∧ (WebSocketServer.handleConnection c1env).webSocket.perMessageDeflateEnabled = true
      ∧ (WebSocketServer.handleConnection c1env).webSocket.pongEnabled
          = c1env.server._enablePong := by
  refine ⟨fun env => ?_, by decide, by decide, by decide⟩
  unfold WebSocketServer.handleConnection handleConnectionAfterDispatch
  by_cases hA : env.server._onConnectionCallback <;>
    by_cases hR : env.onConnectionRegistersHandler <;>
      by_cases hB : env.server._onClientMessageCallback <;>
        simp [hA, hR, hB]

/-- C6: `stop()` performs exactly three steps in order — halt accepting, take
a mutex-guarded snapshot copy of the registry and close every session of that
snapshot with the mutex already released, then delegate to
`SocketServer::stop` — and the sessions closed are exactly the members of the
registry at snapshot time. -/
theorem stop_sequence (clients : Finset Nat) :
    WebSocketServer.stop clients
        = [Event.stopAcceptingConnections, Event.lockClientsMutex, Event.unlockClientsMutex]
            ++ ((WebSocketServer.getClients clients).2.sort (· ≤ ·)).map Event.closeClient
            ++ [Event.socketServerStop]
      ∧ (WebSocketServer.getClients clients).2 = clients
      ∧ (∀ c : Nat, Event.closeClient c ∈ WebSocketServer.stop clients ↔ c ∈ clients) := by
  refine ⟨rfl, rfl, fun c => ?_⟩
  simp [WebSocketServer.stop, WebSocketServer.getClients, Finset.mem_sort]

/-- The handshake-failure log line is never the registry-violation line:
their lengths differ (the former contains a 49-character prefix, the latter
has 20 characters). -/
lemma handshakeFailureLog_ne_errCannotDeleteClient (st : WebSocketConnectStatus) :
    handshakeFailureLog st ≠ errCannotDeleteClient := by
  intro h
  have hl := congrArg String.length h
  simp only [handshakeFailureLog, errCannotDeleteClient, String.length_append] at hl
  have h1 : ("WebSocketServer::handleConnection() HTTP status: ").length = 49 := rfl
  have h2 : (" error: ").length = 8 := rfl
  have h3 : ("Cannot delete client").length = 20 := rfl
  rw [h1, h2, h3] at hl
  omega

/-- C2: on a handshake failure (with no concurrent interference on the
registry and a fresh handle), the session was still inserted strictly before
the handshake attempt and is erased exactly once afterwards with erase count
1, `run()` is never called, the handshake is attempted exactly once, and the
registry returns to its pre-connection contents (hence its pre-connection
size). -/
theorem handshake_failure_registry (env : HandlerEnv)
    (hpath : dispatchSucceeds env)
    (hfail : env.connectStatus.success = false)
    (hfresh : env.wsId ∉ env.clients)
    (hquiet : env.interfere = id) :
    (eventsOf env).findIdx Event.isInsertClient
        < (eventsOf env).findIdx Event.isConnectToSocket
      ∧ (eventsOf env).countP Event.isInsertClient = 1
      ∧ (eventsOf env).countP Event.isEraseClient = 1
      ∧ Event.eraseClient 1 ∈ eventsOf env
      ∧ (eventsOf env).findIdx Event.isConnectToSocket
          < (eventsOf env).findIdx Event.isEraseClient
      ∧ Event.run ∉ eventsOf env
      ∧ (eventsOf env).countP Event.isConnectToSocket = 1
      ∧ (WebSocketServer.handleConnection env).clients = env.clients
      ∧ (WebSocketServer.handleConnection env).clients.card = env.clients.card := by
  unfold eventsOf WebSocketServer.handleConnection handleConnectionAfterDispatch
  rcases hpath with ⟨h1, h2⟩ | ⟨h1, h2⟩ <;>
    by_cases hP : env.server._enablePong <;>
      simp [h1, h2, hP, hfail, hquiet, Finset.erase_insert hfresh,
        Event.isInsertClient, Event.isConnectToSocket, Event.isEraseClient,
        List.findIdx_cons, List.countP_cons]

/-- Witness for `handshake_failure_registry` at a concrete environment. -/
theorem handshake_failure_registry_witness :
    (eventsOf c2env).findIdx Event.isInsertClient
        < (eventsOf c2env).findIdx Event.isConnectToSocket
      ∧ (eventsOf c2env).countP Event.isInsertClient = 1
      ∧ (eventsOf c2env).countP Event.isEraseClient = 1
      ∧ Event.eraseClient 1 ∈ eventsOf c2env
      ∧ (eventsOf c2env).findIdx Event.isConnectToSocket
          < (eventsOf c2env).findIdx Event.isEraseClient
      ∧ Event.run ∉ eventsOf c2env
      ∧ (eventsOf c2env).countP Event.isConnectToSocket = 1
      ∧ (WebSocketServer.handleConnection c2env).clients = c2env.clients
      ∧ (WebSocketServer.handleConnection c2env).clients.card = c2env.clients.card :=
  handshake_failure_registry c2env (Or.inr ⟨rfl, rfl⟩) rfl (by decide) rfl

/-- C5: for every connection that is enrolled, the registry insert precedes
the first session I/O (the handshake attempt), the per-message callback is
cleared strictly after the handshake (and, on success, strictly after `run()`
returned) and strictly before the registry erase; consequently the session's
per-message callback is null at the moment the erase executes (and stays null,
as the final session state shows). -/
theorem insert_io_erase_order (env : HandlerEnv)
    (hpath : dispatchSucceeds env) :
    (eventsOf env).findIdx Event.isInsertClient
        < (eventsOf env).findIdx Event.isConnectToSocket
      ∧ (eventsOf env).findIdx Event.isConnectToSocket
          < (eventsOf env).findIdx Event.isClearOnMessageCallback
      ∧ (env.connectStatus.success = true →
          (eventsOf env).findIdx Event.isConnectToSocket
              < (eventsOf env).findIdx Event.isRunLoop
            ∧ (eventsOf env).findIdx Event.isRunLoop
              < (eventsOf env).findIdx Event.isClearOnMessageCallback)
      ∧ (eventsOf env).findIdx Event.isClearOnMessageCallback
          < (eventsOf env).findIdx Event.isEraseClient
      ∧ (WebSocketServer.handleConnection env).webSocket.onMessageCallbackRegistered
          = false := by
  unfold eventsOf WebSocketServer.handleConnection handleConnectionAfterDispatch
  rcases hpath with ⟨h1, h2⟩ | ⟨h1, h2⟩ <;>
    by_cases hP : env.server._enablePong <;>
      by_cases hS : env.connectStatus.success <;>
        by_cases hM : env.wsId ∈ env.interfere (insert env.wsId env.clients) <;>
          simp [h1, h2, hP, hS, hM,
            Event.isInsertClient, Event.isConnectToSocket, Event.isEraseClient,
            Event.isClearOnMessageCallback, Event.isRunLoop,
            List.findIdx_cons, List.countP_cons]

/-- Witness for `insert_io_erase_order` at a concrete environment. -/
theorem insert_io_erase_order_witness :
    (eventsOf c5env).findIdx Event.isInsertClient
        < (eventsOf c5env).findIdx Event.isConnectToSocket
      ∧ (eventsOf c5env).findIdx Event.isConnectToSocket
          < (eventsOf c5env).findIdx Event.isClearOnMessageCallback
      ∧ (c5env.connectStatus.success = true →
          (eventsOf c5env).findIdx Event.isConnectToSocket
              < (eventsOf c5env).findIdx Event.isRunLoop
            ∧ (eventsOf c5env).findIdx Event.isRunLoop
              < (eventsOf c5env).findIdx Event.isClearOnMessageCallback)
      ∧ (eventsOf c5env).findIdx Event.isClearOnMessageCallback
          < (eventsOf c5env).findIdx Event.isEraseClient
      ∧ (WebSocketServer.handleConnection c5env).webSocket.onMessageCallbackRegistered
          = false :=
  insert_io_erase_order c5env (Or.inl ⟨rfl, rfl⟩)

/-- C8: on the drained paths, when the session handle is still in the registry
at erase time the erase removes exactly one entry and no
"Cannot delete client" line is logged; when it is not (the erase removes 0
entries), exactly one "Cannot delete client" line is logged and the drain
still ends with `connectionState->setTerminated()`. -/
theorem erase_count_logging (env : HandlerEnv)
    (hpath : dispatchSucceeds env) :
    (env.wsId ∈ env.interfere (insert env.wsId env.clients) →
        Event.eraseClient 1 ∈ eventsOf env
          ∧ Event.logError errCannotDeleteClient ∉ eventsOf env)
      ∧ (env.wsId ∉ env.interfere (insert env.wsId env.clients) →
        Event.eraseClient 0 ∈ eventsOf env
          ∧ (eventsOf env).count (Event.logError errCannotDeleteClient) = 1
          ∧ (eventsOf env).getLast? = some Event.setTerminated) := by
  have hne := handshakeFailureLog_ne_errCannotDeleteClient env.connectStatus
  have hne2 := Ne.symm hne
  unfold eventsOf WebSocketServer.handleConnection handleConnectionAfterDispatch
  rcases hpath with ⟨h1, h2⟩ | ⟨h1, h2⟩ <;>
    by_cases hP : env.server._enablePong <;>
      by_cases hS : env.connectStatus.success <;>
        by_cases hM : env.wsId ∈ env.interfere (insert env.wsId env.clients) <;>
          simp [h1, h2, hP, hS, hM, List.count_cons, List.getLast?_append, hne, hne2]

/-- Witness for `erase_count_logging` at a concrete environment. -/
theorem erase_count_logging_witness :
    (c8env.wsId ∈ c8env.interfere (insert c8env.wsId c8env.clients) →
        Event.eraseClient 1 ∈ eventsOf c8env
          ∧ Event.logError errCannotDeleteClient ∉ eventsOf c8env)
      ∧ (c8env.wsId ∉ c8env.interfere (insert c8env.wsId c8env.clients) →
        Event.eraseClient 0 ∈ eventsOf c8env
          ∧ (eventsOf c8env).count (Event.logError errCannotDeleteClient) = 1
          ∧ (eventsOf c8env).getLast? = some Event.setTerminated) :=
  erase_count_logging c8env (Or.inr ⟨rfl, rfl⟩)

/-- C9 counterexample: the per-message handler captures `connectionInfo` (as
`ci`) by reference, not with value-like semantics. -/
theorem connectionInfo_captured_by_reference :
    onClientMessageHandlerCaptures.lookup "ci" = some CaptureMode.byReference
      ∧ CaptureMode.byReference ≠ CaptureMode.byValue := by
  decide

/-- C9 amended: the handler captures `connectionInfo` by reference; the
referenced object nonetheless remains valid for the whole session lifetime,
because the handler is cleared (`setOnMessageCallback(nullptr)`) strictly
before the handler function returns and destroys the `connectionInfo` it
owns — in the trace the clear precedes the final `setTerminated`. -/
theorem connectionInfo_reference_outlives_handler (env : HandlerEnv)
    (hA : env.server._onConnectionCallback = false)
    (hB : env.server._onClientMessageCallback = true) :
    onClientMessageHandlerCaptures.lookup "ci" = some CaptureMode.byReference
      ∧ Event.clearOnMessageCallback ∈ eventsOf env
      ∧ (eventsOf env).findIdx Event.isClearOnMessageCallback
          < (eventsOf env).findIdx Event.isSetTerminated := by
  refine ⟨by decide, ?_, ?_⟩ <;>
    · unfold eventsOf WebSocketServer.handleConnection handleConnectionAfterDispatch
      by_cases hP : env.server._enablePong <;>
        by_cases hS : env.connectStatus.success <;>
          by_cases hM : env.wsId ∈ env.interfere (insert env.wsId env.clients) <;>
            simp [hA, hB, hP, hS, hM, Event.isClearOnMessageCallback,
              Event.isSetTerminated, List.findIdx_cons]

/-- Witness for `connectionInfo_reference_outlives_handler`. -/
theorem connectionInfo_reference_outlives_handler_witness :
    onClientMessageHandlerCaptures.lookup "ci" = some CaptureMode.byReference
      ∧ Event.clearOnMessageCallback ∈ eventsOf c9env
      ∧ (eventsOf c9env).findIdx Event.isClearOnMessageCallback
          < (eventsOf c9env).findIdx Event.isSetTerminated :=
  connectionInfo_reference_outlives_handler c9env rfl rfl

/-- C10: the constructor stores the supplied handshake timeout unchanged
(zero and negative values included — no validation or clamping anywhere), and
every connection whose dispatch succeeds attempts the handshake with exactly
that value: the trace contains a `connectToSocket` event carrying it, and
every `connectToSocket` event of the trace carries it. -/
theorem handshakeTimeout_passed_unchanged (t : Int) (env : HandlerEnv)
    (hpath : dispatchSucceeds env)
    (hs : env.server._handshakeTimeoutSecs
            = (WebSocketServer.construct t)._handshakeTimeoutSecs) :
    (WebSocketServer.construct t)._handshakeTimeoutSecs = t
      ∧ Event.connectToSocket t ∈ eventsOf env
      ∧ (∀ u : Int, Event.connectToSocket u ∈ eventsOf env → u = t) := by
  have ht : env.server._handshakeTimeoutSecs = t := hs
  refine ⟨rfl, ?_, ?_⟩ <;>
    · unfold eventsOf WebSocketServer.handleConnection handleConnectionAfterDispatch
      rcases hpath with ⟨h1, h2⟩ | ⟨h1, h2⟩ <;>
        by_cases hP : env.server._enablePong <;>
          by_cases hS : env.connectStatus.success <;>
            by_cases hM : env.wsId ∈ env.interfere (insert env.wsId env.clients) <;>
              simp [h1, h2, hP, hS, hM, ht]

/-- Witness for `handshakeTimeout_passed_unchanged` at timeout -7. -/
theorem handshakeTimeout_passed_unchanged_witness :
    (WebSocketServer.construct (-7))._handshakeTimeoutSecs = -7
      ∧ Event.connectToSocket (-7) ∈ eventsOf c10env
      ∧ (∀ u : Int, Event.connectToSocket u ∈ eventsOf c10env → u = -7) :=
  handshakeTimeout_passed_unchanged (-7) c10env (Or.inr ⟨rfl, rfl⟩) rfl

end IX
